import Mathlib

/-!
Shallow embedding of the arin-reg-rws template-conversion core:
the template parser (src/regrws/convert.py, class DictFromTemplate) and the
dict-to-payload builders (src/regrws/convert.py, classes PayloadFromDict
base and PayloadFromTemplateDict; src/regrws/payload/converter.py, class
PayloadFromDict).  Python strings are Lean String, Python lists are Lean
List, a raised exception is Except.error, and the Python 2 dict produced by
the parser is an association list in insertion order.
-/

namespace Regrws

/-- Characters removed by the Python str.strip method with no argument:
space, tab, newline, carriage return, vertical tab and form feed. -/
def isPyWs (c : Char) : Bool :=
  c = ' ' || c = '\t' || c = '\n' || c = '\r' || c = '\x0b' || c = '\x0c'

/-- Embedding of str.strip on a character list: drop leading and trailing
whitespace. -/
def stripChars (l : List Char) : List Char :=
  ((l.dropWhile isPyWs).reverse.dropWhile isPyWs).reverse

/-- Embedding of str.strip on a String. -/
def pyStrip (s : String) : String := ⟨stripChars s.data⟩

/-- Split a character list at its LAST colon, returning the text before and
after it.  This embeds the backtracking behaviour of the greedy pattern
fragment in DictFromTemplate._regex, where the first greedy group consumes
as much as possible while still leaving a colon for the separator:
the result is some (a, b) exactly when the input is a, then a colon, then a
colon-free b. -/
def splitLastColon : List Char → Option (List Char × List Char)
  | [] => none
  | c :: rest =>
    match splitLastColon rest with
    | some ab => some (c :: ab.1, ab.2)
    | none => if c = ':' then some ([], rest) else none

/-- Character-list form of the regex match of DictFromTemplate: the line
must start with two digits and a dot, and the remainder must contain a
colon; the two captured groups are the text before the last colon and the
text after it. -/
def matchChars : List Char → Option (String × String)
  | c0 :: c1 :: c2 :: rest =>
    if c0.isDigit && c1.isDigit && c2 = '.' then
      (splitLastColon rest).map (fun ab => (⟨ab.1⟩, ⟨ab.2⟩))
    else none
  | _ => none

/-- Embedding of DictFromTemplate._regex applied with re.match.  Lines are
taken to be newline-free, as produced by splitting the template into
lines. -/
def matchTemplate (s : String) : Option (String × String) :=
  matchChars s.data

/-- Append a value under a key in the parsed-template association list:
when the key is present its value list grows at the end, otherwise a new
entry with a singleton list is added at the end (dict insertion order).
This embeds the create-or-append branch of DictFromTemplate._process. -/
def dictAppend : List (String × List String) → String → String → List (String × List String)
  | [], key, value => [(key, [value])]
  | (k, vs) :: rest, key, value =>
    if k = key then (k, vs ++ [value]) :: rest
    else (k, vs) :: dictAppend rest key value

/-- Association-list lookup, the embedding of Python dict item access and
of the `key in table` membership tests of the dispatch loop. -/
def alookup {α : Type} : List (String × α) → String → Option α
  | [], _ => none
  | (k, v) :: rest, key => if k = key then some v else alookup rest key

/-- Embedding of DictFromTemplate._process: strip both captured groups and
create or extend the corresponding dict entry. -/
def DictFromTemplate.process (d : List (String × List String)) (m : String × String) :
    List (String × List String) :=
  dictAppend d (pyStrip m.1) (pyStrip m.2)

/-- One iteration of the loop in DictFromTemplate.run: a line that matches
the pattern is processed, any other line is discarded. -/
def DictFromTemplate.step (d : List (String × List String)) (line : String) :
    List (String × List String) :=
  match matchTemplate line with
  | some m => DictFromTemplate.process d m
  | none => d

/-- Embedding of DictFromTemplate.run: fold the line loop over the template
starting from the empty dict. -/
def DictFromTemplate.run (template : List String) : List (String × List String) :=
  template.foldl DictFromTemplate.step []

/-- Values contributed to a given label by the template lines, in line
encounter order: for each matching line whose stripped label equals the
given label, the stripped value. -/
def encounterValues (lines : List String) (label : String) : List String :=
  lines.filterMap (fun line =>
    match matchTemplate line with
    | some m => if pyStrip m.1 = label then some (pyStrip m.2) else none
    | none => none)

/-! Payload object model.  The payload classes live in the regrws.payload
package of the repository, which is generated schema code not present under
src/; the shapes below follow the specification: a payload exposes named
attributes, each either a scalar list or a single-element list wrapping a
nested container, and each nested container holds a growing list of
entries to which the add methods append. -/

/-- Modelled from the spec: a numbered line entry of a street-address or
comment container, built by the line constructor of the payload module. -/
structure Line where
  num : Nat
  text : String
deriving DecidableEq

/-- Modelled from the spec: the street-address container; add_line appends
a line entry. -/
structure StreetAddress where
  line : List Line
deriving DecidableEq

/-- Modelled from the spec: the comment container; add_line appends a line
entry. -/
structure Comment where
  line : List Line
deriving DecidableEq

/-- Modelled from the spec: the phone type value object, carrying a type
code list such as a singleton O, M or F. -/
structure TypeT where
  code : List String
deriving DecidableEq

/-- Modelled from the spec: one phone entry with its number list, its type
tag list and an optional extension, none meaning unset. -/
structure Phone where
  number : List String
  type_ : List TypeT
  extension : Option (List String)
deriving DecidableEq

/-- Modelled from the spec: the phones container; add_phone appends a phone
entry. -/
structure Phones where
  phone : List Phone
deriving DecidableEq

/-- Modelled from the spec: one point-of-contact link reference, tagged
with a function code and a handle. -/
structure PocLinkRef where
  function : String
  handle : String
deriving DecidableEq

/-- Modelled from the spec: the point-of-contact-link container;
add_pocLinkRef appends a link reference. -/
structure PocLinks where
  pocLinkRef : List PocLinkRef
deriving DecidableEq

/-- Modelled from the spec: the email container; add_email appends an
address string. -/
structure Emails where
  email : List String
deriving DecidableEq

/-- Modelled from the spec: the country value object stored under the
iso3166_1 attribute.  The constructor in src/regrws/convert.py passes only
code2, leaving code3 and name unset; the one in
src/regrws/payload/converter.py passes all three. -/
structure Iso3166_1 where
  code2 : List String
  code3 : Option (List String)
  name : Option (List String)
deriving DecidableEq

/-- Modelled from the spec: one record of the external country-code
reference, carrying alpha-2 code, alpha-3 code and display name. -/
structure Country where
  alpha2 : String
  alpha3 : String
  name : String
deriving DecidableEq

/-- Modelled from the spec: the payload object under construction.
className stands for the Python class of the target (printed in error
messages); declared lists the scalar attribute names the schema declares
with a placeholder distinguishable from unset, so that getattr with a None
default returns a non-None value; attrs holds the scalar attributes
assigned so far; the remaining fields are the lazily created nested
containers, none meaning the falsy initial value the handlers test for. -/
structure Payload where
  className : String
  declared : List String
  attrs : List (String × List String)
  streetAddress : Option StreetAddress
  comment : Option Comment
  iso3166_1 : Option Iso3166_1
  phones : Option Phones
  pocLinks : Option PocLinks
  emails : Option Emails
deriving DecidableEq

/-- Modelled from the spec: a freshly constructed target payload, with no
scalar attribute assigned and every nested container unset. -/
def freshPayload (cls : String) (declared : List String) : Payload where
  className := cls
  declared := declared
  attrs := []
  streetAddress := none
  comment := none
  iso3166_1 := none
  phones := none
  pocLinks := none
  emails := none

/-- Exceptions the conversion can raise: RegRwsError with its message, the
TypeError or IndexError from subscripting an unset or empty container, and
the lookup failure propagated from the external country-code reference. -/
inductive Err where
  | regRwsError (msg : String)
  | typeError
  | indexError
  | lookupError
deriving DecidableEq

/-- Replace the value of a key in an association list, or add the entry at
the end when the key is absent: the embedding of setattr on a scalar
payload attribute. -/
def dictSet : List (String × List String) → String → List String → List (String × List String)
  | [], a, v => [(a, v)]
  | (k, w) :: rest, a, v =>
    if k = a then (k, v) :: rest
    else (k, w) :: dictSet rest a v

/-- Embedding of setattr on the payload object for a scalar attribute. -/
def setAttr (p : Payload) (a : String) (v : List String) : Payload :=
  { p with attrs := dictSet p.attrs a v }

/-- Embedding of _PayloadFromDict._verify_attribute (identical to
PayloadFromDict._verify_attribute): raise RegRwsError unless getattr on the
payload with a None default returns something other than None, which holds
exactly when the attribute is declared by the schema or was assigned
earlier. -/
def verify_attribute (p : Payload) (a : String) : Except Err Unit :=
  if a ∈ p.declared ∨ (alookup p.attrs a).isSome then .ok ()
  else .error (.regRwsError (p.className ++ " does not have attribute " ++ a))

/-- Embedding of _PayloadFromDict._assign (identical in both files):
verify the attribute, then assign the value list to it. -/
def assign (p : Payload) (a : String) (v : List String) : Except Err Payload :=
  match verify_attribute p a with
  | .error e => .error e
  | .ok _ => .ok (setAttr p a v)

/-- Embedding of _PayloadFromDict._contact_type (identical in both files):
verify contactType, then map the value list P to PERSON and R to ROLE,
leaving the payload untouched on any other value. -/
def contact_type (p : Payload) (value : List String) : Except Err Payload :=
  match verify_attribute p "contactType" with
  | .error e => .error e
  | .ok _ =>
    if value = ["P"] then .ok (setAttr p "contactType" ["PERSON"])
    else if value = ["R"] then .ok (setAttr p "contactType" ["ROLE"])
    else .ok p

/-- Modelled from the spec: one phone entry as built by the phone handler,
with the value list as number, a single type tag and no extension. -/
def mkPhone (value : List String) (typeCode : String) : Phone where
  number := value
  type_ := [{ code := [typeCode] }]
  extension := none

/-- Embedding of _PayloadFromDict._phone (identical in both files): create
the phones container when it is still falsy, then append one entry tagged
with the given type code. -/
def phone (p : Payload) (value : List String) (typeCode : String) : Except Err Payload :=
  let c := p.phones.getD { phone := [] }
  .ok { p with phones := some { phone := c.phone ++ [mkPhone value typeCode] } }

/-- Embedding of _PayloadFromDict._phone_office. -/
def phone_office (p : Payload) (value : List String) : Except Err Payload :=
  phone p value "O"

/-- Embedding of _PayloadFromDict._phone_mobile. -/
def phone_mobile (p : Payload) (value : List String) : Except Err Payload :=
  phone p value "M"

/-- Embedding of _PayloadFromDict._phone_fax. -/
def phone_fax (p : Payload) (value : List String) : Except Err Payload :=
  phone p value "F"

/-- Loop body of _office_extension over the phone entries: reading the
first type tag and its first code raises IndexError when either list is
empty, and an entry whose code is O receives the extension. -/
def extensionPass : List Phone → List String → Except Err (List Phone)
  | [], _ => .ok []
  | ph :: rest, value =>
    match ph.type_ with
    | [] => .error .indexError
    | t :: _ =>
      match t.code with
      | [] => .error .indexError
      | c :: _ =>
        match extensionPass rest value with
        | .error e => .error e
        | .ok rest2 =>
          .ok ((if c = "O" then { ph with extension := some value } else ph) :: rest2)

/-- Embedding of _PayloadFromDict._office_extension (identical in both
files): subscript the phones container, which raises when the container
was never created, then attach the extension to every office-typed phone;
when no office phone is present the loop changes nothing and the call
returns normally. -/
def office_extension (p : Payload) (value : List String) : Except Err Payload :=
  match p.phones with
  | none => .error .typeError
  | some c =>
    match extensionPass c.phone value with
    | .error e => .error e
    | .ok l => .ok { p with phones := some { phone := l } }

/-- Embedding of _PayloadFromDict._email_address (identical in both
files): create the emails container when it is still falsy, then append
every supplied address. -/
def email_address (p : Payload) (value : List String) : Except Err Payload :=
  let c := p.emails.getD { email := [] }
  .ok { p with emails := some { email := c.email ++ value } }

/-- Embedding of the Python enumerate builtin with a start index. -/
def enumFrom : Nat → List String → List (Nat × String)
  | _, [] => []
  | n, a :: rest => (n, a) :: enumFrom (n + 1) rest

/-- Line entries built from a value list by enumerating from the given
start index. -/
def lineEntries (start : Nat) (value : List String) : List Line :=
  (enumFrom start value).map (fun e => { num := e.1, text := e.2 })

namespace ConvertPy

/-! Handlers specific to the class _PayloadFromDict of
src/regrws/convert.py (inherited unchanged by PayloadFromTemplateDict). -/

/-- Embedding of _PayloadFromDict._address in src/regrws/convert.py:
create the street-address container when it is still falsy, then append
one line entry per value, numbered by enumerate starting at 0. -/
def address (p : Payload) (value : List String) : Except Err Payload :=
  let sa := p.streetAddress.getD { line := [] }
  .ok { p with streetAddress := some { line := sa.line ++ lineEntries 0 value } }

/-- Embedding of _PayloadFromDict._comment: create the comment container
when it is still falsy, then append one line entry per value, numbered by
enumerate starting at 0. -/
def comment (p : Payload) (value : List String) : Except Err Payload :=
  let co := p.comment.getD { line := [] }
  .ok { p with comment := some { line := co.line ++ lineEntries 0 value } }

/-- Embedding of _PayloadFromDict._country_code in src/regrws/convert.py:
no external reference is consulted; the whole value list is stored as the
code2 of a new iso3166_1 value object, unconditionally. -/
def country_code (p : Payload) (value : List String) : Except Err Payload :=
  .ok { p with iso3166_1 := some { code2 := value, code3 := none, name := none } }

/-- Embedding of _PayloadFromDict._poc: create the point-of-contact-link
container when it is still falsy, then append one link reference built
from the function code and the first value; subscripting an empty value
list raises IndexError. -/
def poc (p : Payload) (value : List String) (func : String) : Except Err Payload :=
  let c := p.pocLinks.getD { pocLinkRef := [] }
  match value with
  | [] => .error .indexError
  | h :: _ =>
    .ok { p with pocLinks := some { pocLinkRef := c.pocLinkRef ++ [{ function := func, handle := h }] } }

/-- Embedding of _PayloadFromDict._poc_admin. -/
def poc_admin (p : Payload) (value : List String) : Except Err Payload :=
  poc p value "AD"

/-- Embedding of _PayloadFromDict._poc_tech. -/
def poc_tech (p : Payload) (value : List String) : Except Err Payload :=
  poc p value "T"

/-- Embedding of _PayloadFromDict._poc_abuse. -/
def poc_abuse (p : Payload) (value : List String) : Except Err Payload :=
  poc p value "AB"

/-- Embedding of _PayloadFromDict._poc_noc. -/
def poc_noc (p : Payload) (value : List String) : Except Err Payload :=
  poc p value "N"

end ConvertPy

namespace ConverterPy

/-! Handlers specific to the class PayloadFromDict of
src/regrws/payload/converter.py where they differ from
src/regrws/convert.py. -/

/-- Embedding of PayloadFromDict._address in
src/regrws/payload/converter.py: create the street-address container when
it is still falsy, then append one line entry per value, numbered by
enumerate starting at 1. -/
def address (p : Payload) (value : List String) : Except Err Payload :=
  let sa := p.streetAddress.getD { line := [] }
  .ok { p with streetAddress := some { line := sa.line ++ lineEntries 1 value } }

/-- Embedding of PayloadFromDict._country_code in
src/regrws/payload/converter.py: resolve the first value through the
external country-code reference (pycountry, third-party, modelled from the
spec as a partial map from alpha-2 codes to country records); an
unresolvable code raises the lookup failure, a resolved one builds an
iso3166_1 value object carrying alpha-2, alpha-3 and display name. -/
def country_code (resolve : String → Option Country) (p : Payload) (value : List String) :
    Except Err Payload :=
  match value with
  | [] => .error .indexError
  | c :: _ =>
    match resolve c with
    | none => .error .lookupError
    | some ct =>
      .ok { p with iso3166_1 := some { code2 := [ct.alpha2], code3 := some [ct.alpha3], name := some [ct.name] } }

end ConverterPy

/-- The three per-schema lookup tables of a builder class: the handler map
(with the bound method the Python getattr dispatch would fetch), the
scalar-attribute map, and the ignore tuple.  This is _handler, _attr and
_ignore of _PayloadFromDict in src/regrws/convert.py and handler, simple
and ignore of PayloadFromDict in src/regrws/payload/converter.py. -/
structure Converter where
  handler : List (String × (Payload → List String → Except Err Payload))
  attr : List (String × String)
  ignore : List String

/-- Loop body of run in both builder classes: a key with a registered
handler is dispatched to it, a key in the scalar map is assigned, a key in
the ignore tuple is skipped, and any other key raises RegRwsError naming
the payload class and the key. -/
def Converter.step (conv : Converter) (p : Payload) (key : String) (value : List String) :
    Except Err Payload :=
  match alookup conv.handler key with
  | some method => method p value
  | none =>
    match alookup conv.attr key with
    | some a => assign p a value
    | none =>
      if key ∈ conv.ignore then .ok p
      else .error (.regRwsError (p.className ++ " has no attribute corresponding to key " ++ key))

/-- Embedding of run in both builder classes: fold the dispatch loop over
the items of the source dict.  iteritems on a Python 2 dict yields every
item exactly once but in an order the language does not tie to insertion
order, so run takes the item list in iteration order explicitly. -/
def Converter.run (conv : Converter) : List (String × List String) → Payload → Except Err Payload
  | [], p => .ok p
  | (k, v) :: rest, p =>
    match conv.step p k v with
    | .error e => .error e
    | .ok p2 => conv.run rest p2

/-- Embedding of the class dicts of PayloadFromTemplateDict in
src/regrws/convert.py. -/
def PayloadFromTemplateDict : Converter where
  handler :=
    [("Contact Type (P or R)", contact_type),
     ("Address", ConvertPy.address),
     ("Country Code", ConvertPy.country_code),
     ("Office Phone Number", phone_office),
     ("Office Phone Number Extension", office_extension),
     ("E-mail Address", email_address),
     ("Mobile", phone_mobile),
     ("Fax", phone_fax),
     ("Public Comments", ConvertPy.comment),
     ("Org Address", ConvertPy.address),
     ("Org Country Code", ConvertPy.country_code),
     ("Admin POC Handle", ConvertPy.poc_admin),
     ("Tech POC Handle", ConvertPy.poc_tech),
     ("Abuse POC Handle", ConvertPy.poc_abuse),
     ("NOC POC Handle", ConvertPy.poc_noc)]
  attr :=
    [("Last Name or Role Account", "lastName"),
     ("First Name", "firstName"),
     ("Middle Name", "middleName"),
     ("Company Name", "companyName"),
     ("City", "city"),
     ("State/Province", "iso3166_2"),
     ("Postal Code", "postalCode"),
     ("Organization\x27s Legal Name", "orgName"),
     ("Organization\x27s D/B/A", "dbaName"),
     ("Business Tax ID Number (DO NOT LIST SSN)", "taxId"),
     ("Org City", "city"),
     ("Org State/Province", "iso3166_2"),
     ("Org Postal Code", "postalCode")]
  ignore :=
    ["API Key",
     "Registration Action (N,M, or R)",
     "Existing POC Handle",
     "Existing OrgID",
     "Referral Server",
     "Additional Information"]

/-- Embedding of the class dicts of PayloadFromDict in
src/regrws/payload/converter.py, parameterized by the external
country-code reference its country-code handler consults. -/
def PayloadFromDict (resolve : String → Option Country) : Converter where
  handler :=
    [("Contact Type (P or R)", contact_type),
     ("Address", ConverterPy.address),
     ("Country Code", ConverterPy.country_code resolve),
     ("Office Phone Number", phone_office),
     ("Office Phone Number Extension", office_extension),
     ("E-mail Address", email_address),
     ("Mobile", phone_mobile),
     ("Fax", phone_fax)]
  attr :=
    [("Last Name or Role Account", "lastName"),
     ("First Name", "firstName"),
     ("Middle Name", "middleName"),
     ("Company Name", "companyName"),
     ("City", "city"),
     ("State/Province", "iso3166_2"),
     ("Postal Code", "postalCode")]
  ignore :=
    ["API Key",
     "Registration Action (N,M, or R)",
     "Existing POC Handle",
     "Public Comments"]

/-- Scalar attribute read on the outcome of a conversion: the assigned
value list of the attribute when the conversion succeeded, none when it
raised or never assigned the attribute. -/
def runAttr (r : Except Err Payload) (a : String) : Option (List String) :=
  match r with
  | .ok p => alookup p.attrs a
  | .error _ => none

/-! Lemmas about the parser. -/

/-- When splitLastColon finds nothing, the input has no colon. -/
theorem splitLastColon_eq_none : ∀ cs : List Char, splitLastColon cs = none → ':' ∉ cs := by
  intro cs
  induction cs with
  | nil => intro _ h; simp at h
  | cons c rest ih =>
    intro h
    simp only [splitLastColon] at h
    cases hr : splitLastColon rest with
    | some ab => rw [hr] at h; cases h
    | none =>
      rw [hr] at h
      by_cases hc : c = ':'
      · rw [if_pos hc] at h; cases h
      · intro hmem
        rcases List.mem_cons.mp hmem with h1 | h1
        · exact hc h1.symm
        · exact ih hr h1

/-- splitLastColon splits its input at the last colon: the two halves
reassemble the input around a colon and the second half is colon-free. -/
theorem splitLastColon_eq_some :
    ∀ cs a b : List Char, splitLastColon cs = some (a, b) → cs = a ++ ':' :: b ∧ ':' ∉ b := by
  intro cs
  induction cs with
  | nil => intro a b h; simp [splitLastColon] at h
  | cons c rest ih =>
    intro a b h
    simp only [splitLastColon] at h
    cases hr : splitLastColon rest with
    | some ab =>
      rw [hr] at h
      obtain ⟨a2, b2⟩ := ab
      have h2 : c :: a2 = a ∧ b2 = b := by
        have := Option.some.inj h
        exact ⟨congrArg Prod.fst this, congrArg Prod.snd this⟩
      obtain ⟨ha, hb⟩ := h2
      obtain ⟨hsplit, hfree⟩ := ih a2 b2 hr
      subst ha
      subst hb
      constructor
      · rw [hsplit]; rfl
      · exact hfree
    | none =>
      rw [hr] at h
      by_cases hc : c = ':'
      · rw [if_pos hc] at h
        have h2 : ([] : List Char) = a ∧ rest = b := by
          have := Option.some.inj h
          exact ⟨congrArg Prod.fst this, congrArg Prod.snd this⟩
        obtain ⟨ha, hb⟩ := h2
        subst ha
        subst hb
        exact ⟨by rw [hc]; rfl, splitLastColon_eq_none rest hr⟩
      · rw [if_neg hc] at h; cases h

/-- The value group captured by the template regex never contains a colon:
the greedy first group always swallows every colon but the last. -/
theorem matchChars_value_colon_free :
    ∀ (cs : List Char) (k v : String), matchChars cs = some (k, v) → ':' ∉ v.data := by
  intro cs k v h
  match cs with
  | [] => cases h
  | [c0] => cases h
  | [c0, c1] => cases h
  | c0 :: c1 :: c2 :: rest =>
    simp only [matchChars] at h
    by_cases hok : (c0.isDigit && c1.isDigit && c2 = '.') = true
    · rw [if_pos hok] at h
      cases hsp : splitLastColon rest with
      | none => rw [hsp] at h; cases h
      | some ab =>
        rw [hsp] at h
        have h2 : (⟨ab.1⟩ : String) = k ∧ (⟨ab.2⟩ : String) = v := by
          have := Option.some.inj h
          exact ⟨congrArg Prod.fst this, congrArg Prod.snd this⟩
        obtain ⟨_, hv⟩ := h2
        have hfree := (splitLastColon_eq_some rest ab.1 ab.2 (by rw [hsp])).2
        rw [← hv]
        exact hfree
    · rw [if_neg hok] at h; cases h

/-- Lookup after dictAppend: the appended key gains its value at the end
of its list (an absent key starts from the empty list), every other key is
untouched. -/
theorem alookup_dictAppend (d : List (String × List String)) (k v key : String) :
    alookup (dictAppend d k v) key =
      if k = key then some (((alookup d key).getD []) ++ [v]) else alookup d key := by
  induction d with
  | nil =>
    by_cases h : k = key <;> simp [dictAppend, alookup, h]
  | cons e rest ih =>
    obtain ⟨k0, w⟩ := e
    by_cases h0 : k0 = k
    · subst h0
      by_cases h1 : k0 = key <;> simp [dictAppend, alookup, h1]
    · by_cases h1 : k0 = key
      · have hk : k ≠ key := fun hc => h0 (by rw [h1, hc])
        have h0k : key ≠ k := fun hc => h0 (h1.trans hc)
        simp [dictAppend, alookup, h0, h1, hk, h0k]
      · simp [dictAppend, alookup, h0, h1, ih]

/-- Combination of an already accumulated value list for a key with the
values later lines contribute to it. -/
def mergeValues (o : Option (List String)) (es : List String) : Option (List String) :=
  match o with
  | some vs => some (vs ++ es)
  | none => if es = [] then none else some es

/-- Folding the parser loop from any starting dict: the lookup of a label
afterwards merges its lookup before with the values the lines contribute
to it in encounter order. -/
theorem alookup_foldl_step :
    ∀ (lines : List String) (d : List (String × List String)) (key : String),
    alookup (lines.foldl DictFromTemplate.step d) key =
      mergeValues (alookup d key) (encounterValues lines key) := by
  intro lines
  induction lines with
  | nil =>
    intro d key
    simp only [List.foldl_nil, encounterValues, List.filterMap_nil]
    cases alookup d key <;> simp [mergeValues]
  | cons line rest ih =>
    intro d key
    simp only [List.foldl_cons]
    rw [ih]
    cases hm : matchTemplate line with
    | none =>
      simp [DictFromTemplate.step, hm, encounterValues, List.filterMap_cons]
    | some m =>
      simp only [DictFromTemplate.step, hm, DictFromTemplate.process]
      by_cases hk : pyStrip m.1 = key
      · rw [alookup_dictAppend, if_pos hk]
        have henc : encounterValues (line :: rest) key = pyStrip m.2 :: encounterValues rest key := by
          simp [encounterValues, List.filterMap_cons, hm, hk]
        rw [henc]
        cases halo : alookup d key <;> simp [mergeValues]
      · rw [alookup_dictAppend, if_neg hk]
        have henc : encounterValues (line :: rest) key = encounterValues rest key := by
          simp [encounterValues, List.filterMap_cons, hm, hk]
        rw [henc]

/-- dictAppend preserves non-emptiness of every stored value list. -/
theorem dictAppend_value_ne_nil (d : List (String × List String)) (k v : String)
    (hd : ∀ e ∈ d, e.2 ≠ []) : ∀ e ∈ dictAppend d k v, e.2 ≠ [] := by
  induction d with
  | nil =>
    intro e he
    simp only [dictAppend, List.mem_singleton] at he
    subst he
    simp
  | cons e0 rest ih =>
    obtain ⟨k0, w⟩ := e0
    intro e he
    by_cases h0 : k0 = k
    · rw [dictAppend, if_pos h0] at he
      rcases List.mem_cons.mp he with h1 | h1
      · subst h1; simp
      · exact hd e (List.mem_cons_of_mem _ h1)
    · rw [dictAppend, if_neg h0] at he
      rcases List.mem_cons.mp he with h1 | h1
      · subst h1; exact hd (k0, w) (List.mem_cons_self _ _)
      · exact ih (fun e2 he2 => hd e2 (List.mem_cons_of_mem _ he2)) e h1

/-- The parser loop preserves non-emptiness of every stored value list. -/
theorem foldl_step_value_ne_nil :
    ∀ (lines : List String) (d : List (String × List String)),
    (∀ e ∈ d, e.2 ≠ []) → ∀ e ∈ lines.foldl DictFromTemplate.step d, e.2 ≠ [] := by
  intro lines
  induction lines with
  | nil => intro d hd; simpa using hd
  | cons line rest ih =>
    intro d hd
    simp only [List.foldl_cons]
    apply ih
    cases hm : matchTemplate line with
    | none => simpa [DictFromTemplate.step, hm] using hd
    | some m =>
      simp only [DictFromTemplate.step, hm, DictFromTemplate.process]
      exact dictAppend_value_ne_nil d _ _ hd

/-- C8: for every sequence of template lines, a label repeated on several
matching lines is associated by DictFromTemplate.run with the list of all
its values in line encounter order; in particular the two lines 01.Label:a
and 02.Label:b parse to the list a, b under Label, and every value list in
the result is non-empty. -/
theorem claim_C8_parser_accumulates :
    (∀ (lines : List String) (key : String),
      alookup (DictFromTemplate.run lines) key =
        if encounterValues lines key = [] then none else some (encounterValues lines key)) ∧
    (∀ (lines : List String) (e : String × List String),
      e ∈ DictFromTemplate.run lines → e.2 ≠ []) ∧
    DictFromTemplate.run ["01.Label:a", "02.Label:b"] = [("Label", ["a", "b"])] := by
  refine ⟨?_, ?_, by rfl⟩
  · intro lines key
    rw [DictFromTemplate.run, alookup_foldl_step]
    rfl
  · intro lines e he
    exact foldl_step_value_ne_nil lines [] (by simp) e he

/-- Witness for C8: the characterization and the non-emptiness instantiated
on the concrete two-line template. -/
theorem claim_C8_witness :
    alookup (DictFromTemplate.run ["01.Label:a", "02.Label:b"]) "Label" = some ["a", "b"] ∧
    (["a", "b"] : List String) ≠ [] := by
  constructor
  · have h := claim_C8_parser_accumulates.1 ["01.Label:a", "02.Label:b"] "Label"
    rw [h]
    decide
  · exact claim_C8_parser_accumulates.2.1 ["01.Label:a", "02.Label:b"] ("Label", ["a", "b"])
      (by decide)

/-- C9: a matching line with several colons after the two-digit prefix is
split at the LAST colon, so the label captures everything up to the last
colon and the value is only the text after it, which therefore never
contains a colon; in particular 01.Office Phone:555-1234 ext:12 parses to
the label Office Phone:555-1234 ext with value 12. -/
theorem claim_C9_last_colon_split :
    (∀ cs a b : List Char, splitLastColon cs = some (a, b) → cs = a ++ ':' :: b ∧ ':' ∉ b) ∧
    (∀ s k v : String, matchTemplate s = some (k, v) → ':' ∉ v.data) ∧
    DictFromTemplate.run ["01.Office Phone:555-1234 ext:12"] =
      [("Office Phone:555-1234 ext", ["12"])] := by
  refine ⟨splitLastColon_eq_some, ?_, by rfl⟩
  intro s k v h
  exact matchChars_value_colon_free s.data k v h

/-- Witness for C9: the split property at a concrete character list and
the colon-freeness of the value of a concrete matching line. -/
theorem claim_C9_witness :
    ((['a', ':', 'b'] : List Char) = ['a'] ++ ':' :: ['b'] ∧ ':' ∉ (['b'] : List Char)) ∧
    ':' ∉ ("12" : String).data := by
  constructor
  · exact claim_C9_last_colon_split.1 ['a', ':', 'b'] ['a'] ['b'] (by decide)
  · exact claim_C9_last_colon_split.2.1 "01.Office Phone:555-1234 ext:12"
      "Office Phone:555-1234 ext" "12" (by rfl)

/-! Lemmas about the builder. -/

/-- Lookup after dictSet at the written key yields the written value. -/
theorem alookup_dictSet_self :
    ∀ (d : List (String × List String)) (a : String) (v : List String),
    alookup (dictSet d a v) a = some v := by
  intro d a v
  induction d with
  | nil => simp [dictSet, alookup]
  | cons e rest ih =>
    obtain ⟨k, w⟩ := e
    by_cases h : k = a
    · simp [dictSet, alookup, h]
    · simp [dictSet, alookup, h, ih]

/-- Running the dispatch loop over a concatenation runs the first part and,
when it raised nothing, continues with the second from the payload reached
so far. -/
theorem run_append (conv : Converter) :
    ∀ (xs ys : List (String × List String)) (p : Payload),
    conv.run (xs ++ ys) p =
      match conv.run xs p with
      | .error e => .error e
      | .ok p2 => conv.run ys p2 := by
  intro xs
  induction xs with
  | nil => intro ys p; rfl
  | cons e rest ih =>
    intro ys p
    obtain ⟨k, v⟩ := e
    simp only [List.cons_append, Converter.run]
    cases conv.step p k v with
    | error e2 => rfl
    | ok p2 => exact ih ys p2

/-- The office-extension loop over phone entries none of which carries the
office type code leaves the list unchanged and raises nothing. -/
theorem extensionPass_no_office :
    ∀ (l : List Phone) (v : List String),
    (∀ ph ∈ l, ∃ t ts c0 cs, ph.type_ = t :: ts ∧ t.code = c0 :: cs ∧ c0 ≠ "O") →
    extensionPass l v = .ok l := by
  intro l v
  induction l with
  | nil => intro _; rfl
  | cons ph rest ih =>
    intro h
    obtain ⟨t, ts, c0, cs, ht, hc, hne⟩ := h ph (List.mem_cons_self _ _)
    simp only [extensionPass, ht, hc]
    rw [ih (fun q hq => h q (List.mem_cons_of_mem _ hq))]
    simp [hne]

/-- C4: the builder dispatch raises RegRwsError naming the payload class
and the key for a key found in none of the three lookup tables, and
silently skips a key that is only in the ignore tuple. -/
theorem claim_C4_unmapped_key_error_and_ignore_skip :
    ∀ (conv : Converter) (p : Payload) (key : String) (value : List String)
      (rest : List (String × List String)),
    alookup conv.handler key = none → alookup conv.attr key = none →
    ((key ∉ conv.ignore →
       conv.run ((key, value) :: rest) p =
         .error (.regRwsError (p.className ++ " has no attribute corresponding to key " ++ key))) ∧
     (key ∈ conv.ignore → conv.run ((key, value) :: rest) p = conv.run rest p)) := by
  intro conv p key value rest h1 h2
  constructor
  · intro h3
    simp [Converter.run, Converter.step, h1, h2, h3]
  · intro h3
    simp [Converter.run, Converter.step, h1, h2, h3]

/-- Witness for C4: a key of the template-dict builder in no table raises
the RegRwsError naming the class and the key, and the ignored key API Key
is skipped. -/
theorem claim_C4_witness :
    Converter.run PayloadFromTemplateDict [("Bogus", ["x"])] (freshPayload "poc" []) =
      .error (.regRwsError "poc has no attribute corresponding to key Bogus") ∧
    Converter.run PayloadFromTemplateDict [("API Key", ["x"])] (freshPayload "poc" []) =
      Converter.run PayloadFromTemplateDict [] (freshPayload "poc" []) := by
  constructor
  · exact (claim_C4_unmapped_key_error_and_ignore_skip PayloadFromTemplateDict
      (freshPayload "poc" []) "Bogus" ["x"] [] rfl rfl).1 (by decide)
  · exact (claim_C4_unmapped_key_error_and_ignore_skip PayloadFromTemplateDict
      (freshPayload "poc" []) "API Key" ["x"] [] rfl rfl).2 (by decide)

/-- C5: a scalar assignment verifies the attribute before mutating: when
the payload neither declares the attribute nor has it assigned, the
dispatch step returns the RegRwsError naming the payload class and the
attribute without producing any modified payload; otherwise it assigns. -/
theorem claim_C5_verify_before_assign :
    ∀ (p : Payload) (a : String) (v : List String),
    ((a ∉ p.declared ∧ alookup p.attrs a = none) →
      assign p a v = .error (.regRwsError (p.className ++ " does not have attribute " ++ a))) ∧
    ((a ∈ p.declared ∨ (alookup p.attrs a).isSome) →
      assign p a v = .ok (setAttr p a v)) := by
  intro p a v
  constructor
  · rintro ⟨h1, h2⟩
    have hcond : ¬(a ∈ p.declared ∨ (alookup p.attrs a).isSome = true) := by
      rintro (hc | hc)
      · exact h1 hc
      · rw [h2] at hc; cases hc
    unfold assign verify_attribute
    rw [if_neg hcond]
  · intro h
    unfold assign verify_attribute
    rw [if_pos h]

/-- Witness for C5: assigning city on a payload that does not declare it
raises, and on a payload that declares it assigns. -/
theorem claim_C5_witness :
    assign (freshPayload "poc" []) "city" ["X"] =
      .error (.regRwsError "poc does not have attribute city") ∧
    assign (freshPayload "poc" ["city"]) "city" ["X"] =
      .ok (setAttr (freshPayload "poc" ["city"]) "city" ["X"]) := by
  constructor
  · exact (claim_C5_verify_before_assign (freshPayload "poc" []) "city" ["X"]).1 ⟨by decide, rfl⟩
  · exact (claim_C5_verify_before_assign (freshPayload "poc" ["city"]) "city" ["X"]).2
      (Or.inl (by decide))

/-- C7: with contactType declared, the contact-type handler maps the value
list P to PERSON and R to ROLE, and returns the payload untouched without
raising on any other value list. -/
theorem claim_C7_contact_type :
    ∀ (p : Payload) (v : List String), "contactType" ∈ p.declared →
    ((v = ["P"] → contact_type p v = .ok (setAttr p "contactType" ["PERSON"])) ∧
     (v = ["R"] → contact_type p v = .ok (setAttr p "contactType" ["ROLE"])) ∧
     (v ≠ ["P"] → v ≠ ["R"] → contact_type p v = .ok p)) := by
  intro p v hdecl
  have hver : verify_attribute p "contactType" = .ok () := by
    unfold verify_attribute
    rw [if_pos (Or.inl hdecl)]
  refine ⟨?_, ?_, ?_⟩
  · intro hv; subst hv; simp [contact_type, hver]
  · intro hv; subst hv; simp [contact_type, hver]
  · intro h1 h2; simp [contact_type, hver, h1, h2]

/-- Witness for C7: the three behaviours at the concrete values P, R and
X on a payload declaring contactType. -/
theorem claim_C7_witness :
    contact_type (freshPayload "poc" ["contactType"]) ["P"] =
      .ok (setAttr (freshPayload "poc" ["contactType"]) "contactType" ["PERSON"]) ∧
    contact_type (freshPayload "poc" ["contactType"]) ["R"] =
      .ok (setAttr (freshPayload "poc" ["contactType"]) "contactType" ["ROLE"]) ∧
    contact_type (freshPayload "poc" ["contactType"]) ["X"] =
      .ok (freshPayload "poc" ["contactType"]) := by
  refine ⟨?_, ?_, ?_⟩
  · exact (claim_C7_contact_type (freshPayload "poc" ["contactType"]) ["P"] (by decide)).1 rfl
  · exact (claim_C7_contact_type (freshPayload "poc" ["contactType"]) ["R"] (by decide)).2.1 rfl
  · exact (claim_C7_contact_type (freshPayload "poc" ["contactType"]) ["X"] (by decide)).2.2
      (by decide) (by decide)

/-- C6: every nested container is created exactly by the first handler
call that needs it, from the empty fresh container, and every later
handler call targeting the same field appends to the existing container
contents instead of replacing them: stated for the phones, street-address,
comment, email and point-of-contact-link handlers of
src/regrws/convert.py. -/
theorem claim_C6_lazy_containers :
    ∀ (p : Payload) (v : List String) (t fn : String),
    (p.phones = none →
      phone p v t = .ok { p with phones := some { phone := [mkPhone v t] } }) ∧
    (∀ c, p.phones = some c →
      phone p v t = .ok { p with phones := some { phone := c.phone ++ [mkPhone v t] } }) ∧
    (p.streetAddress = none →
      ConvertPy.address p v = .ok { p with streetAddress := some { line := lineEntries 0 v } }) ∧
    (∀ sa, p.streetAddress = some sa →
      ConvertPy.address p v =
        .ok { p with streetAddress := some { line := sa.line ++ lineEntries 0 v } }) ∧
    (p.comment = none →
      ConvertPy.comment p v = .ok { p with comment := some { line := lineEntries 0 v } }) ∧
    (∀ co, p.comment = some co →
      ConvertPy.comment p v = .ok { p with comment := some { line := co.line ++ lineEntries 0 v } }) ∧
    (p.emails = none → email_address p v = .ok { p with emails := some { email := v } }) ∧
    (∀ em, p.emails = some em →
      email_address p v = .ok { p with emails := some { email := em.email ++ v } }) ∧
    (∀ h tl, v = h :: tl → p.pocLinks = none →
      ConvertPy.poc p v fn =
        .ok { p with pocLinks := some { pocLinkRef := [{ function := fn, handle := h }] } }) ∧
    (∀ h tl pl, v = h :: tl → p.pocLinks = some pl →
      ConvertPy.poc p v fn =
        .ok { p with
              pocLinks := some { pocLinkRef := pl.pocLinkRef ++ [{ function := fn, handle := h }] } }) := by
  intro p v t fn
  refine ⟨?_, ?_, ?_, ?_, ?_, ?_, ?_, ?_, ?_, ?_⟩
  · intro h; simp [phone, h]
  · intro c h; simp [phone, h]
  · intro h; simp [ConvertPy.address, h]
  · intro sa h; simp [ConvertPy.address, h]
  · intro h; simp [ConvertPy.comment, h]
  · intro co h; simp [ConvertPy.comment, h]
  · intro h; simp [email_address, h]
  · intro em h; simp [email_address, h]
  · intro h tl hv hp; subst hv; simp [ConvertPy.poc, hp]
  · intro h tl pl hv hp; subst hv; simp [ConvertPy.poc, hp]

/-- Witness for C6: first phone call creates the container, a second call
appends to it, and a point-of-contact call creates its container from the
first value. -/
theorem claim_C6_witness :
    phone (freshPayload "poc" []) ["5551234"] "O" =
      .ok { freshPayload "poc" [] with phones := some { phone := [mkPhone ["5551234"] "O"] } } ∧
    phone { freshPayload "poc" [] with phones := some { phone := [mkPhone ["1"] "M"] } }
        ["5551234"] "O" =
      .ok { freshPayload "poc" [] with
            phones := some { phone := [mkPhone ["1"] "M", mkPhone ["5551234"] "O"] } } ∧
    ConvertPy.poc (freshPayload "poc" []) ["HANDLE"] "AD" =
      .ok { freshPayload "poc" [] with
            pocLinks := some { pocLinkRef := [{ function := "AD", handle := "HANDLE" }] } } := by
  refine ⟨?_, ?_, ?_⟩
  · exact (claim_C6_lazy_containers (freshPayload "poc" []) ["5551234"] "O" "AD").1 rfl
  · exact (claim_C6_lazy_containers
      { freshPayload "poc" [] with phones := some { phone := [mkPhone ["1"] "M"] } }
      ["5551234"] "O" "AD").2.1 { phone := [mkPhone ["1"] "M"] } rfl
  · exact (claim_C6_lazy_containers (freshPayload "poc" []) ["HANDLE"] "AD"
      "AD").2.2.2.2.2.2.2.2.1 "HANDLE" [] rfl rfl

/-- C10: on any non-empty value list the two address handlers disagree:
the one in src/regrws/convert.py numbers the appended lines from 0, the
one in src/regrws/payload/converter.py numbers them from 1, so from the
same payload they build different street-address line entries. -/
theorem claim_C10_address_numbering_divergence :
    ∀ (p : Payload) (v : List String), v ≠ [] →
    (ConvertPy.address p v =
      .ok { p with
            streetAddress := some { line := (p.streetAddress.getD { line := [] }).line ++ lineEntries 0 v } }) ∧
    (ConverterPy.address p v =
      .ok { p with
            streetAddress := some { line := (p.streetAddress.getD { line := [] }).line ++ lineEntries 1 v } }) ∧
    lineEntries 0 v ≠ lineEntries 1 v ∧
    ConvertPy.address p v ≠ ConverterPy.address p v := by
  intro p v hv
  obtain ⟨h0, t0, rfl⟩ : ∃ h0 t0, v = h0 :: t0 := by
    cases v with
    | nil => exact absurd rfl hv
    | cons a b => exact ⟨a, b, rfl⟩
  have hne : lineEntries 0 (h0 :: t0) ≠ lineEntries 1 (h0 :: t0) := by
    intro h
    have h2 := congrArg (fun l => (l.map Line.num).head?) h
    simp [lineEntries, enumFrom] at h2
  refine ⟨rfl, rfl, hne, ?_⟩
  intro heq
  have heq2 : (Except.ok { p with
        streetAddress := some { line := (p.streetAddress.getD { line := [] }).line ++ lineEntries 0 (h0 :: t0) } } :
        Except Err Payload) =
      .ok { p with
        streetAddress := some { line := (p.streetAddress.getD { line := [] }).line ++ lineEntries 1 (h0 :: t0) } } :=
    heq
  have h3 := Except.ok.inj heq2
  have h4 := congrArg Payload.streetAddress h3
  have h5 := Option.some.inj h4
  have h6 := congrArg StreetAddress.line h5
  exact hne (List.append_cancel_left h6)

/-- Witness for C10: the two handlers disagree on the spec sample address
of two lines. -/
theorem claim_C10_witness :
    ConvertPy.address (freshPayload "poc" []) ["123 Main St", "Suite 2"] ≠
      ConverterPy.address (freshPayload "poc" []) ["123 Main St", "Suite 2"] :=
  (claim_C10_address_numbering_divergence (freshPayload "poc" [])
    ["123 Main St", "Suite 2"] (by decide)).2.2.2

/-- Modelled from the spec: a sample state of the external country-code
reference that resolves the United States alpha-2 code and nothing else,
so that ZZ is an unresolvable code. -/
def sampleCountries : String → Option Country := fun c =>
  if c = "US" then some { alpha2 := "US", alpha3 := "USA", name := "United States" } else none

/-- C1 counterexample: the claim that the attribute deterministically ends
up holding the later-occurring key requires run to process keys in
template encounter order, but run iterates a Python 2 dict whose iteration
order is not tied to insertion order: over the same parsed template with
the two city keys, the encounter order and its reversal (a permutation of
the same dict items, hence an equally possible iteration order) leave
different values in the city attribute. -/
theorem claim_C1_counterexample :
    DictFromTemplate.run ["01.City:AAA", "02.Org City:BBB"] =
      [("City", ["AAA"]), ("Org City", ["BBB"])] ∧
    List.Perm [("Org City", ["BBB"]), ("City", ["AAA"])]
      [("City", ["AAA"]), ("Org City", ["BBB"])] ∧
    runAttr (Converter.run PayloadFromTemplateDict
      [("City", ["AAA"]), ("Org City", ["BBB"])] (freshPayload "poc" ["city"])) "city" =
      some ["BBB"] ∧
    runAttr (Converter.run PayloadFromTemplateDict
      [("Org City", ["BBB"]), ("City", ["AAA"])] (freshPayload "poc" ["city"])) "city" =
      some ["AAA"] ∧
    (["BBB"] : List String) ≠ ["AAA"] := by
  refine ⟨rfl, ?_, rfl, rfl, by decide⟩
  exact List.Perm.swap ("City", ["AAA"]) ("Org City", ["BBB"]) []

/-- Lookup after dictSet at a different key is unchanged. -/
theorem alookup_dictSet_ne :
    ∀ (d : List (String × List String)) (k a : String) (v : List String),
    k ≠ a → alookup (dictSet d k v) a = alookup d a := by
  intro d k a v hne
  induction d with
  | nil => simp [dictSet, alookup, hne]
  | cons e rest ih =>
    obtain ⟨k0, w⟩ := e
    by_cases h : k0 = k
    · subst h
      simp [dictSet, alookup, hne]
    · simp [dictSet, alookup, h, ih]

/-- A successful association-list lookup exhibits a member of the list. -/
theorem alookup_eq_some_mem {α : Type} :
    ∀ (l : List (String × α)) (key : String) (v : α),
    alookup l key = some v → (key, v) ∈ l := by
  intro l key v
  induction l with
  | nil => intro h; cases h
  | cons e rest ih =>
    obtain ⟨k0, w⟩ := e
    intro h
    by_cases hk : k0 = key
    · rw [alookup, if_pos hk] at h
      have hw : w = v := Option.some.inj h
      subst hk
      subst hw
      exact List.mem_cons_self _ _
    · rw [alookup, if_neg hk] at h
      exact List.mem_cons_of_mem _ (ih h)

/-- The contact-type handler writes no scalar attribute other than
contactType. -/
theorem contact_type_attrs (a : String) (ha : a ≠ "contactType") :
    ∀ (q : Payload) (w : List String) (q2 : Payload),
    contact_type q w = .ok q2 → alookup q2.attrs a = alookup q.attrs a := by
  intro q w q2 h
  have hca : "contactType" ≠ a := fun hc => ha hc.symm
  unfold contact_type at h
  revert h
  cases verify_attribute q "contactType" with
  | error e => intro h; exact absurd h (by simp)
  | ok u =>
    by_cases hP : w = ["P"]
    · rw [if_pos hP]
      intro h
      rw [← Except.ok.inj h]
      exact alookup_dictSet_ne q.attrs "contactType" a ["PERSON"] hca
    · rw [if_neg hP]
      by_cases hR : w = ["R"]
      · rw [if_pos hR]
        intro h
        rw [← Except.ok.inj h]
        exact alookup_dictSet_ne q.attrs "contactType" a ["ROLE"] hca
      · rw [if_neg hR]
        intro h
        rw [← Except.ok.inj h]

/-- The phone handler leaves the scalar attributes untouched. -/
theorem phone_attrs :
    ∀ (q : Payload) (w : List String) (t : String) (q2 : Payload),
    phone q w t = .ok q2 → q2.attrs = q.attrs := by
  intro q w t q2 h
  have h2 : ({ q with phones := some { phone := (q.phones.getD { phone := [] }).phone ++ [mkPhone w t] } } : Payload) = q2 :=
    Except.ok.inj h
  rw [← h2]

/-- The office-extension handler leaves the scalar attributes untouched. -/
theorem office_extension_attrs :
    ∀ (q : Payload) (w : List String) (q2 : Payload),
    office_extension q w = .ok q2 → q2.attrs = q.attrs := by
  intro q w q2 h
  unfold office_extension at h
  split at h
  · exact absurd h (by simp)
  · split at h
    · exact absurd h (by simp)
    · rw [← Except.ok.inj h]

/-- The email handler leaves the scalar attributes untouched. -/
theorem email_address_attrs :
    ∀ (q : Payload) (w : List String) (q2 : Payload),
    email_address q w = .ok q2 → q2.attrs = q.attrs := by
  intro q w q2 h
  have h2 : ({ q with emails := some { email := (q.emails.getD { email := [] }).email ++ w } } : Payload) = q2 :=
    Except.ok.inj h
  rw [← h2]

/-- The address handler of src/regrws/convert.py leaves the scalar
attributes untouched. -/
theorem address_attrs :
    ∀ (q : Payload) (w : List String) (q2 : Payload),
    ConvertPy.address q w = .ok q2 → q2.attrs = q.attrs := by
  intro q w q2 h
  have h2 : ({ q with streetAddress := some { line := (q.streetAddress.getD { line := [] }).line ++ lineEntries 0 w } } : Payload) = q2 :=
    Except.ok.inj h
  rw [← h2]

/-- The comment handler leaves the scalar attributes untouched. -/
theorem comment_attrs :
    ∀ (q : Payload) (w : List String) (q2 : Payload),
    ConvertPy.comment q w = .ok q2 → q2.attrs = q.attrs := by
  intro q w q2 h
  have h2 : ({ q with comment := some { line := (q.comment.getD { line := [] }).line ++ lineEntries 0 w } } : Payload) = q2 :=
    Except.ok.inj h
  rw [← h2]

/-- The country-code handler of src/regrws/convert.py leaves the scalar
attributes untouched. -/
theorem country_code_attrs :
    ∀ (q : Payload) (w : List String) (q2 : Payload),
    ConvertPy.country_code q w = .ok q2 → q2.attrs = q.attrs := by
  intro q w q2 h
  have h2 : ({ q with iso3166_1 := some { code2 := w, code3 := none, name := none } } : Payload) = q2 :=
    Except.ok.inj h
  rw [← h2]

/-- The point-of-contact handler leaves the scalar attributes untouched. -/
theorem poc_attrs :
    ∀ (q : Payload) (w : List String) (fn : String) (q2 : Payload),
    ConvertPy.poc q w fn = .ok q2 → q2.attrs = q.attrs := by
  intro q w fn q2 h
  revert h
  cases w with
  | nil => intro h; exact absurd h (by simp [ConvertPy.poc])
  | cons h0 tl =>
    intro h
    have h2 : ({ q with pocLinks := some { pocLinkRef := (q.pocLinks.getD { pocLinkRef := [] }).pocLinkRef ++ [{ function := fn, handle := h0 }] } } : Payload) = q2 :=
      Except.ok.inj h
    rw [← h2]

/-- Every handler of PayloadFromTemplateDict preserves the lookup of any
scalar attribute other than contactType: handlers only build nested
containers, except the contact-type one, which writes contactType only. -/
theorem templateDict_handlers_preserve (a : String) (ha : a ≠ "contactType") :
    ∀ (key : String) (f : Payload → List String → Except Err Payload),
    alookup PayloadFromTemplateDict.handler key = some f →
    ∀ (q : Payload) (w : List String) (q2 : Payload),
    f q w = .ok q2 → alookup q2.attrs a = alookup q.attrs a := by
  intro key f hf q w q2 h
  have hmem := alookup_eq_some_mem _ key f hf
  simp only [PayloadFromTemplateDict, List.mem_cons, List.not_mem_nil, or_false,
    Prod.mk.injEq] at hmem
  rcases hmem with ⟨-, hfun⟩ | ⟨-, hfun⟩ | ⟨-, hfun⟩ | ⟨-, hfun⟩ | ⟨-, hfun⟩ |
    ⟨-, hfun⟩ | ⟨-, hfun⟩ | ⟨-, hfun⟩ | ⟨-, hfun⟩ | ⟨-, hfun⟩ | ⟨-, hfun⟩ |
    ⟨-, hfun⟩ | ⟨-, hfun⟩ | ⟨-, hfun⟩ | ⟨-, hfun⟩ <;> subst hfun
  · exact contact_type_attrs a ha q w q2 h
  · rw [address_attrs q w q2 h]
  · rw [country_code_attrs q w q2 h]
  · rw [phone_attrs q w "O" q2 h]
  · rw [office_extension_attrs q w q2 h]
  · rw [email_address_attrs q w q2 h]
  · rw [phone_attrs q w "M" q2 h]
  · rw [phone_attrs q w "F" q2 h]
  · rw [comment_attrs q w q2 h]
  · rw [address_attrs q w q2 h]
  · rw [country_code_attrs q w q2 h]
  · rw [poc_attrs q w "AD" q2 h]
  · rw [poc_attrs q w "T" q2 h]
  · rw [poc_attrs q w "AB" q2 h]
  · rw [poc_attrs q w "N" q2 h]

/-- Running the dispatch loop over items none of which assigns a given
scalar attribute, with handlers that preserve it, leaves its lookup
unchanged. -/
theorem run_preserves_attr (conv : Converter) (a : String)
    (hpres : ∀ (key : String) (f : Payload → List String → Except Err Payload),
      alookup conv.handler key = some f →
      ∀ (q : Payload) (w : List String) (q2 : Payload),
      f q w = .ok q2 → alookup q2.attrs a = alookup q.attrs a) :
    ∀ (rest : List (String × List String)) (p0 p : Payload),
    (∀ e ∈ rest, alookup conv.handler e.1 = none → alookup conv.attr e.1 ≠ some a) →
    conv.run rest p0 = .ok p →
    alookup p.attrs a = alookup p0.attrs a := by
  intro rest
  induction rest with
  | nil =>
    intro p0 p _ hrun
    rw [Except.ok.inj hrun]
  | cons e tail ih =>
    obtain ⟨k2, v2⟩ := e
    intro p0 p hno hrun
    simp only [Converter.run] at hrun
    revert hrun
    cases hs : Converter.step conv p0 k2 v2 with
    | error e2 => intro hrun; exact absurd hrun (by simp)
    | ok p3 =>
      intro hrun
      change conv.run tail p3 = .ok p at hrun
      have htail := ih p3 p (fun e2 he2 => hno e2 (List.mem_cons_of_mem _ he2)) hrun
      unfold Converter.step at hs
      have hstep : alookup p3.attrs a = alookup p0.attrs a := by
        split at hs
        · rename_i f hh
          exact hpres k2 f hh p0 v2 p3 hs
        · rename_i hh
          split at hs
          · rename_i a2 hatt
            have ha2 : a2 ≠ a := fun hEq =>
              hno (k2, v2) (List.mem_cons_self _ _) hh (hatt.trans (by rw [hEq]))
            unfold assign at hs
            split at hs
            · exact absurd hs (by simp)
            · rw [← Except.ok.inj hs]
              exact alookup_dictSet_ne p0.attrs a2 a v2 ha2
          · rename_i hatt
            split at hs
            · rw [← Except.ok.inj hs]
            · exact absurd hs (by simp)
      rw [htail, hstep]

/-- C1 amended: whichever scalar-mapped key the dict iteration processes
last among those assigning a given attribute determines that attribute in
the final payload, whatever items are processed after it; in particular,
when the iteration order follows template encounter order, the
later-occurring key wins. -/
theorem claim_C1_amended_last_processed_scalar_wins :
    ∀ (items rest : List (String × List String)) (k : String) (v : List String)
      (a : String) (p0 p : Payload),
    alookup PayloadFromTemplateDict.handler k = none →
    alookup PayloadFromTemplateDict.attr k = some a →
    (∀ e ∈ rest, alookup PayloadFromTemplateDict.handler e.1 = none →
      alookup PayloadFromTemplateDict.attr e.1 ≠ some a) →
    Converter.run PayloadFromTemplateDict (items ++ (k, v) :: rest) p0 = .ok p →
    alookup p.attrs a = some v := by
  intro items rest k v a p0 p h1 h2 hrest hrun
  have ha : a ≠ "contactType" := by
    have hmem := alookup_eq_some_mem _ k a h2
    have hall : ∀ e ∈ PayloadFromTemplateDict.attr, e.2 ≠ "contactType" := by decide
    exact hall (k, a) hmem
  rw [run_append] at hrun
  revert hrun
  cases hr : Converter.run PayloadFromTemplateDict items p0 with
  | error e => intro hrun; exact absurd hrun (by simp)
  | ok p1 =>
    intro hrun
    change Converter.run PayloadFromTemplateDict ((k, v) :: rest) p1 = .ok p at hrun
    have hstep : Converter.step PayloadFromTemplateDict p1 k v = assign p1 a v := by
      simp [Converter.step, h1, h2]
    simp only [Converter.run, hstep] at hrun
    revert hrun
    cases has : assign p1 a v with
    | error e => intro hrun; exact absurd hrun (by simp)
    | ok p2 =>
      intro hrun
      change Converter.run PayloadFromTemplateDict rest p2 = .ok p at hrun
      have hp2 : setAttr p1 a v = p2 := by
        unfold assign at has
        revert has
        cases verify_attribute p1 a with
        | error e => intro has; exact absurd has (by simp)
        | ok u => intro has; exact Except.ok.inj has
      have hval : alookup p2.attrs a = some v := by
        rw [← hp2]
        exact alookup_dictSet_self p1.attrs a v
      have hpre := run_preserves_attr PayloadFromTemplateDict a
        (templateDict_handlers_preserve a ha) rest p2 p hrest hrun
      rw [hpre, hval]

/-- Witness for C1 amended: in the encounter-order run of a template whose
city keys are followed by a first-name key and an ignored key, the city
attribute still holds the value of the later city key. -/
theorem claim_C1_witness :
    alookup (Payload.attrs { freshPayload "poc" ["city", "firstName"] with
      attrs := [("city", ["BBB"]), ("firstName", ["JOHN"])] }) "city" = some ["BBB"] :=
  claim_C1_amended_last_processed_scalar_wins
    [("City", ["AAA"])] [("First Name", ["JOHN"]), ("API Key", ["X"])]
    "Org City" ["BBB"] "city" (freshPayload "poc" ["city", "firstName"])
    { freshPayload "poc" ["city", "firstName"] with
      attrs := [("city", ["BBB"]), ("firstName", ["JOHN"])] }
    rfl rfl
    (by
      intro e he
      rcases List.mem_cons.mp he with rfl | he2
      · intro _
        decide
      · rcases List.mem_cons.mp he2 with rfl | he3
        · intro _
          decide
        · cases he3)
    rfl

/-- C2 counterexample: a parsed template holding a mobile key and the
office-extension key but no office-phone key converts successfully in
encounter order: the extension handler finds a phones container with no
office-typed entry, changes nothing, raises nothing, and the extension
value appears nowhere in the final payload, contradicting that the
conversion deterministically fails. -/
theorem claim_C2_counterexample :
    alookup (DictFromTemplate.run ["01.Mobile:5551234", "02.Office Phone Number Extension:12"])
      "Office Phone Number Extension" = some ["12"] ∧
    alookup (DictFromTemplate.run ["01.Mobile:5551234", "02.Office Phone Number Extension:12"])
      "Office Phone Number" = none ∧
    Converter.run PayloadFromTemplateDict
      (DictFromTemplate.run ["01.Mobile:5551234", "02.Office Phone Number Extension:12"])
      (freshPayload "poc" []) =
      .ok { freshPayload "poc" [] with
            phones := some { phone := [mkPhone ["5551234"] "M"] } } :=
  ⟨rfl, rfl, rfl⟩

/-- C2 amended: the office-extension handler fails only when the phones
container was never created (no phone key of any type processed earlier in
the iteration order), by subscripting the unset container; when an earlier
mobile or fax key created the container and no entry carries the office
type code, the handler completes silently and the extension is dropped. -/
theorem claim_C2_amended_extension_requires_phones :
    ∀ (p : Payload) (v : List String),
    (p.phones = none → office_extension p v = .error .typeError) ∧
    (∀ c, p.phones = some c →
      (∀ ph ∈ c.phone, ∃ t ts c0 cs, ph.type_ = t :: ts ∧ t.code = c0 :: cs ∧ c0 ≠ "O") →
      office_extension p v = .ok p) := by
  intro p v
  constructor
  · intro h; simp [office_extension, h]
  · intro c hc hno
    simp only [office_extension, hc]
    rw [extensionPass_no_office c.phone v hno]
    show Except.ok ({ p with phones := some { phone := c.phone } }) = Except.ok p
    have hps : ({ phone := c.phone } : Phones) = c := rfl
    rw [hps, ← hc]

/-- Witness for C2 amended: with no phone processed the extension call
raises the subscript error, and with only a mobile phone it returns the
payload unchanged. -/
theorem claim_C2_witness :
    office_extension (freshPayload "poc" []) ["12"] = .error .typeError ∧
    office_extension { freshPayload "poc" [] with
        phones := some { phone := [mkPhone ["5551234"] "M"] } } ["12"] =
      .ok { freshPayload "poc" [] with
            phones := some { phone := [mkPhone ["5551234"] "M"] } } := by
  constructor
  · exact (claim_C2_amended_extension_requires_phones (freshPayload "poc" []) ["12"]).1 rfl
  · exact (claim_C2_amended_extension_requires_phones
      { freshPayload "poc" [] with phones := some { phone := [mkPhone ["5551234"] "M"] } }
      ["12"]).2 { phone := [mkPhone ["5551234"] "M"] } rfl
      (fun ph hph => by
        rw [List.mem_singleton] at hph
        subst hph
        exact ⟨{ code := ["M"] }, [], "M", [], rfl, rfl, by decide⟩)

/-- C3 counterexample: the country-code handler of src/regrws/convert.py
consults no external reference at all: on a value whose code the reference
cannot resolve it raises nothing and populates iso3166_1 with a value
object carrying the raw code, contradicting that every country-code
handler raises a lookup failure and leaves iso3166_1 unset. -/
theorem claim_C3_counterexample :
    sampleCountries "ZZ" = none ∧
    ConvertPy.country_code (freshPayload "poc" []) ["ZZ"] =
      .ok { freshPayload "poc" [] with
            iso3166_1 := some { code2 := ["ZZ"], code3 := none, name := none } } ∧
    (some { code2 := ["ZZ"], code3 := none, name := none } : Option Iso3166_1) ≠ none := by
  refine ⟨rfl, rfl, by decide⟩

/-- C3 amended: the handler of src/regrws/payload/converter.py resolves
the first value through the external reference, raises the lookup failure
on an unresolvable code without producing any payload, and on success
stores alpha-2, alpha-3 and name; the handler of src/regrws/convert.py
performs no lookup and unconditionally stores the raw value list as
code2. -/
theorem claim_C3_amended_country_code :
    ∀ (resolve : String → Option Country) (p : Payload) (c : String) (cs : List String),
    (resolve c = none → ConverterPy.country_code resolve p (c :: cs) = .error .lookupError) ∧
    (∀ ct, resolve c = some ct →
      ConverterPy.country_code resolve p (c :: cs) =
        .ok { p with
              iso3166_1 := some { code2 := [ct.alpha2], code3 := some [ct.alpha3], name := some [ct.name] } }) ∧
    (∀ v : List String, ConvertPy.country_code p v =
      .ok { p with iso3166_1 := some { code2 := v, code3 := none, name := none } }) := by
  intro resolve p c cs
  refine ⟨?_, ?_, fun v => rfl⟩
  · intro h; simp [ConverterPy.country_code, h]
  · intro ct h; simp [ConverterPy.country_code, h]

/-- Witness for C3 amended: against the sample reference, ZZ raises the
lookup failure and US stores the resolved country. -/
theorem claim_C3_witness :
    ConverterPy.country_code sampleCountries (freshPayload "poc" []) ["ZZ"] =
      .error .lookupError ∧
    ConverterPy.country_code sampleCountries (freshPayload "poc" []) ["US"] =
      .ok { freshPayload "poc" [] with
            iso3166_1 := some { code2 := ["US"], code3 := some ["USA"], name := some ["United States"] } } := by
  constructor
  · exact (claim_C3_amended_country_code sampleCountries (freshPayload "poc" []) "ZZ" []).1 rfl
  · exact (claim_C3_amended_country_code sampleCountries (freshPayload "poc" []) "US" []).2.1
      { alpha2 := "US", alpha3 := "USA", name := "United States" } rfl

end Regrws
